import Mathlib

/-!
Verification of the Sling stream-to-asset translation logic from
`dagster_embedded_elt/sling/asset_decorator.py`.

The embedding models:
  * `DagsterSlingTranslator.sanitize_stream_name` — strip double quotes, then
    replace each character outside `[A-Za-z0-9_.]` with one underscore;
  * `DagsterSlingTranslator.get_asset_key_for_target` — prefix plus dot-split;
  * `DagsterSlingTranslator.get_deps_asset_key` — dot-split, no prefix;
  * `get_streams_from_replication` — per-entry logical stream extraction with
    the `meta.dagster.asset_key` override;
  * the per-stream pipeline of `sling_assets` building (target, dep) pairs.

Python values occurring in a replication config are modelled by `PyVal`;
attribute errors that Python would raise (`.replace` on a list, `.get` on a
non-dict) are modelled by `Except String`.
-/

/-- Model of the Python/YAML values a replication config's entries can hold. -/
inductive PyVal : Type
  | vstr (s : String)
  | vlist (xs : List PyVal)
  | vdict (entries : List (String × PyVal))
  | vbool (b : Bool)
  | vint (n : Int)
  | vnone
  deriving Repr

instance : Inhabited PyVal := ⟨PyVal.vnone⟩

/-- The double-quote character (code 34). -/
def quoteChar : Char := Char.ofNat 34

/-- Membership in the regex character class `[a-zA-Z0-9_.]` from
`sanitize_stream_name`. -/
def isAllowedChar (c : Char) : Bool :=
  (97 ≤ c.toNat && c.toNat ≤ 122) || (65 ≤ c.toNat && c.toNat ≤ 90) ||
  (48 ≤ c.toNat && c.toNat ≤ 57) || c == Char.ofNat 95 || c == Char.ofNat 46

/-- True when a character is not a double quote. -/
def notQuote (c : Char) : Bool := !(c == quoteChar)

/-- The per-character action of `re.sub(r"[^a-zA-Z0-9_.]", "_", -)`:
a character in the class is kept, any other single character becomes one
underscore (the pattern matches one character at a time, so no collapsing). -/
def sanChar (c : Char) : Char := if isAllowedChar c then c else Char.ofNat 95

/-- Python `stream_name.replace(DOUBLEQUOTE, "")`: delete every occurrence of
the double-quote character. -/
def pyRemoveQuotes (s : String) : String := String.mk (s.data.filter notQuote)

/-- Python `re.sub(r"[^a-zA-Z0-9_.]", "_", -)` applied to a whole string. -/
def reSubDisallowed (s : String) : String := String.mk (s.data.map sanChar)

/-- Embedding of `DagsterSlingTranslator.sanitize_stream_name`. -/
def sanitize_stream_name (s : String) : String :=
  reSubDisallowed (pyRemoveQuotes s)

/-- The spec's description of sanitization, written from its words: first
delete all literal double-quote characters, then replace each remaining
character outside `[A-Za-z0-9_.]` with exactly one underscore. -/
def spec_sanitize (s : String) : String :=
  String.mk ((s.data.filter (fun c => !(c == quoteChar))).map
    (fun c => if isAllowedChar c then c else Char.ofNat 95))

/-- Python `cs.split(".")` on the character list of a string: single-character
separator, empty input yields one empty field, adjacent dots yield empty
fields. -/
def splitOnDot : List Char → List (List Char)
  | [] => [[]]
  | c :: rest =>
    let r := splitOnDot rest
    if c == Char.ofNat 46 then [] :: r
    else
      match r with
      | [] => [[c]]
      | g :: gs => (c :: g) :: gs

/-- Python `s.split(".")`. -/
def splitDot (s : String) : List String := (splitOnDot s.data).map String.mk

/-- Embedding of `DagsterSlingTranslator.get_asset_key_for_target`:
`AssetKey([target_prefix] + sanitize_stream_name(stream_name).split("."))`.
An `AssetKey` is its list of path segments. -/
def get_asset_key_for_target (stream_name : String) ( target_prefix : String) :
    List String :=
  let components := splitDot (sanitize_stream_name stream_name)
  [ target_prefix] ++ components

/-- The call with the Python default argument `target_prefix="target"`. -/
def get_asset_key_for_target_default (stream_name : String) : List String :=
  get_asset_key_for_target stream_name ("target")

/-- Embedding of `DagsterSlingTranslator.get_deps_asset_key`:
`AssetKey(sanitize_stream_name(stream_name).split("."))`. -/
def get_deps_asset_key (stream_name : String) : List String :=
  splitDot (sanitize_stream_name stream_name)

/-- First value bound to a key in an association list (Python dict lookup,
insertion order preserved). -/
def pyLookup (es : List (String × PyVal)) (k : String) : Option PyVal :=
  match es.find? (fun kv => kv.1 == k) with
  | some kv => some kv.2
  | none => none

/-- Python `dict.get(k, default)` on a known dict. -/
def pyGetD (es : List (String × PyVal)) (k : String) (dflt : PyVal) : PyVal :=
  (pyLookup es k).getD dflt

/-- Python `v.get(k, default)` on an arbitrary value: raises `AttributeError`
when `v` is not a dict. -/
def pyDictGet (v : PyVal) (k : String) (dflt : PyVal) : Except String PyVal :=
  match v with
  | PyVal.vdict es => Except.ok (pyGetD es k dflt)
  | _ => Except.error ("AttributeError")

/-- Python truthiness of the modelled values. -/
def pyTruthy : PyVal → Bool
  | PyVal.vstr s => !(s == "")
  | PyVal.vlist xs => !xs.isEmpty
  | PyVal.vdict es => !es.isEmpty
  | PyVal.vbool b => b
  | PyVal.vint n => !(n == 0)
  | PyVal.vnone => false

/-- Whether a value is a Python dict (`isinstance(value, dict)`). -/
def isPyDict : PyVal → Bool
  | PyVal.vdict _ => true
  | _ => false

/-- The body of the loop of `get_streams_from_replication` for one entry
`(key, value)` of the `streams` mapping:
if `value` is a dict, read `value.get("meta", {}).get("dagster", {})
.get("asset_key", [])` and append it when truthy, else append `key`;
if `value` is not a dict, append `key`. -/
def streamKeyFor (key : String) (value : PyVal) : Except String PyVal :=
  match value with
  | PyVal.vdict es =>
    match pyDictGet (pyGetD es ("meta") (PyVal.vdict [])) ("dagster")
        (PyVal.vdict []) with
    | Except.error e => Except.error e
    | Except.ok dag =>
      match pyDictGet dag ("asset_key") (PyVal.vlist []) with
      | Except.error e => Except.error e
      | Except.ok ak =>
        Except.ok (if pyTruthy ak then ak else PyVal.vstr key)
  | _ => Except.ok (PyVal.vstr key)

/-- The `meta.dagster.asset_key` override carried by a stream descriptor, when
the nested access succeeds: `none` when the descriptor is not a dict or the
access would raise. The value is the `asset_key` entry, defaulting to the
empty list as in the source. -/
def overrideOf : PyVal → Option PyVal
  | PyVal.vdict es =>
    match pyDictGet (pyGetD es ("meta") (PyVal.vdict [])) ("dagster")
        (PyVal.vdict []) with
    | Except.error _ => none
    | Except.ok dag =>
      match pyDictGet dag ("asset_key") (PyVal.vlist []) with
      | Except.error _ => none
      | Except.ok ak => some ak
  | _ => none

/-- Ordered effectful map over a list in the `Except` monad, modelling a
Python loop that appends one result per element and may raise. -/
def mapExcept {α β : Type} (f : α → Except String β) :
    List α → Except String (List β)
  | [] => Except.ok []
  | a :: as =>
    match f a with
    | Except.error e => Except.error e
    | Except.ok b =>
      match mapExcept f as with
      | Except.error e => Except.error e
      | Except.ok bs => Except.ok (b :: bs)

/-- A replication config as the translator sees it: the `streams` mapping,
an insertion-ordered association list. -/
structure ReplicationConfig : Type where
  streams : List (String × PyVal)

/-- Embedding of `get_streams_from_replication`. -/
def get_streams_from_replication (cfg : ReplicationConfig) :
    Except String (List PyVal) :=
  mapExcept (fun kv => streamKeyFor kv.1 kv.2) cfg.streams

/-- What `sling_assets` does with one logical stream value: call
`get_asset_key_for_target(stream)` and `get_deps_asset_key(stream)`. Both call
`stream.replace(DOUBLEQUOTE, "")`, which raises `AttributeError` when the
stream value is not a string (for instance a list-valued override). -/
def asset_pair (stream : PyVal) : Except String (List String × List String) :=
  match stream with
  | PyVal.vstr s =>
    Except.ok (get_asset_key_for_target_default s, get_deps_asset_key s)
  | _ => Except.error ("AttributeError")

/-- The per-stream pipeline of `sling_assets`: enumerate logical streams, then
build the (target key, dependency key) pair for each. -/
def sling_asset_pairs (cfg : ReplicationConfig) :
    Except String (List (List String × List String)) :=
  match get_streams_from_replication cfg with
  | Except.error e => Except.error e
  | Except.ok ids => mapExcept asset_pair ids

/-- Total extraction from `Except`, defaulting on errors; used only to state
that a successful `mapExcept` run equals a pure `map`. -/
def extractD {β : Type} [Inhabited β] : Except String β → β
  | Except.ok b => b
  | Except.error _ => default

/-! ### Helper lemmas -/

theorem allowed_ne_quote (c : Char) (h : isAllowedChar c = true) :
    c ≠ quoteChar := by
  intro heq
  rw [heq] at h
  exact absurd h (by decide)

theorem sanChar_notQuote (c : Char) : notQuote (sanChar c) = true := by
  unfold notQuote sanChar
  split
  · next h => simpa using allowed_ne_quote c h
  · decide

theorem sanChar_idem (c : Char) : sanChar (sanChar c) = sanChar c := by
  by_cases h : isAllowedChar c = true
  · simp [sanChar, h]
  · have h2 : sanChar c = Char.ofNat 95 := by simp [sanChar, h]
    rw [h2]
    decide

theorem filter_notQuote_map_sanChar (l : List Char) :
    (l.map sanChar).filter notQuote = l.map sanChar := by
  apply List.filter_eq_self.mpr
  intro c hc
  obtain ⟨a, _, rfl⟩ := List.mem_map.mp hc
  exact sanChar_notQuote a

theorem map_sanChar_idem (l : List Char) :
    (l.map sanChar).map sanChar = l.map sanChar := by
  rw [List.map_map]
  exact List.map_congr_left (fun a _ => sanChar_idem a)

theorem mapExcept_ok_forall₂ {α β : Type} (f : α → Except String β) :
    ∀ (l : List α) (r : List β), mapExcept f l = Except.ok r →
      List.Forall₂ (fun a b => f a = Except.ok b) l r := by
  intro l
  induction l with
  | nil =>
    intro r h
    simp [mapExcept] at h
    subst h
    exact List.Forall₂.nil
  | cons a as ih =>
    intro r h
    cases hfa : f a with
    | error e => simp [mapExcept, hfa] at h
    | ok b =>
      cases hrest : mapExcept f as with
      | error e => simp [mapExcept, hfa, hrest] at h
      | ok bs =>
        simp [mapExcept, hfa, hrest] at h
        subst h
        exact List.Forall₂.cons hfa (ih bs hrest)

theorem mapExcept_ok_eq_map {α β : Type} [Inhabited β]
    (f : α → Except String β) :
    ∀ (l : List α) (r : List β), mapExcept f l = Except.ok r →
      r = l.map (fun a => extractD (f a)) := by
  intro l
  induction l with
  | nil =>
    intro r h
    simp [mapExcept] at h
    subst h
    rfl
  | cons a as ih =>
    intro r h
    cases hfa : f a with
    | error e => simp [mapExcept, hfa] at h
    | ok b =>
      cases hrest : mapExcept f as with
      | error e => simp [mapExcept, hfa, hrest] at h
      | ok bs =>
        simp [mapExcept, hfa, hrest] at h
        subst h
        simp [hfa, extractD]
        exact ih bs hrest

theorem streamKeyFor_not_dict (k : String) (v : PyVal)
    (h : isPyDict v = false) :
    streamKeyFor k v = Except.ok (PyVal.vstr k) := by
  cases v <;> first | rfl | simp [isPyDict] at h

theorem streamKeyFor_override (k : String) (v : PyVal) (ov : PyVal)
    (hov : overrideOf v = some ov) (ht : pyTruthy ov = true) :
    streamKeyFor k v = Except.ok ov := by
  cases v with
  | vdict es =>
    cases hdag : pyDictGet (pyGetD es ("meta") (PyVal.vdict [])) ("dagster")
        (PyVal.vdict []) with
    | error e => simp [overrideOf, hdag] at hov
    | ok dag =>
      cases hak : pyDictGet dag ("asset_key") (PyVal.vlist []) with
      | error e => simp [overrideOf, hdag, hak] at hov
      | ok ak =>
        simp [overrideOf, hdag, hak] at hov
        subst hov
        simp [streamKeyFor, hdag, hak, ht]
  | vstr s => simp [overrideOf] at hov
  | vlist xs => simp [overrideOf] at hov
  | vbool b => simp [overrideOf] at hov
  | vint n => simp [overrideOf] at hov
  | vnone => simp [overrideOf] at hov

/-! ### Claim theorems -/

/-- C1: the claim says a `meta.dagster.asset_key` override becomes the target
identifier itself, with no sanitization, no dot-splitting and no target
prefix. The code contradicts this: the override replaces the raw stream name
but is then fed through `get_asset_key_for_target`, so a string override
`mydb_users` yields the target key `["target", "mydb_users"]` (prefix still
applied), and a list-valued override raises `AttributeError` inside
`sanitize_stream_name`. -/
theorem c1_asset_key_override_still_prefixed :
    sling_asset_pairs ⟨[(("public.users"), PyVal.vdict [(("meta"), PyVal.vdict
        [(("dagster"), PyVal.vdict
          [(("asset_key"), PyVal.vstr ("mydb_users"))])])])]⟩ =
      Except.ok [([("target"), ("mydb_users")], [("mydb_users")])] ∧
    sling_asset_pairs ⟨[(("public.users"), PyVal.vdict [(("meta"), PyVal.vdict
        [(("dagster"), PyVal.vdict [(("asset_key"),
          PyVal.vlist [PyVal.vstr ("my"), PyVal.vstr ("db")])])])])]⟩ =
      Except.error ("AttributeError") :=
  ⟨rfl, rfl⟩

/-- C2: the claim says a `meta.dagster.deps` override replaces the derived
dependency identifier. The code never reads `meta.dagster.deps` anywhere
(`get_streams_from_replication` only reads `asset_key`, and
`get_deps_asset_key` takes only the stream name), so the dependency key for a
stream carrying that override is still derived from the raw stream name. -/
theorem c2_deps_override_never_read :
    sling_asset_pairs ⟨[(("public.users"), PyVal.vdict [(("meta"), PyVal.vdict
        [(("dagster"), PyVal.vdict
          [(("deps"), PyVal.vstr ("sourcedb_users"))])])])]⟩ =
      Except.ok [([("target"), ("public"), ("users")],
        [("public"), ("users")])] :=
  rfl

/-- C3 counterexample: the claim states
`sanitize_stream_name` applied to the 13-character string
DOUBLEQUOTE weird name! DOUBLEQUOTE returns `_weird_name__`; it does not,
because the double quotes are deleted before substitution and so contribute
no underscores. -/
theorem c3_counterexample :
    ¬ sanitize_stream_name ("\"weird name!\"") = ("_weird_name__") := by
  decide

/-- C3 (amended): sanitizing the quoted string DOUBLEQUOTE weird name!
DOUBLEQUOTE yields `weird_name_`: the two quotes are stripped, and the space
and the `!` each become one underscore. -/
theorem c3_sanitize_weird_name :
    sanitize_stream_name ("\"weird name!\"") = ("weird_name_") :=
  rfl

/-- C4: `sanitize_stream_name` equals the spec's description (delete all
double quotes, then replace each remaining disallowed character with exactly
one underscore, never collapsing runs — witnessed by length preservation
after quote removal and by `a  b!!` mapping to `a__b__`), and the clean name
`public.accounts` passes through unchanged. -/
theorem c4_sanitize_matches_spec :
    (∀ s : String, sanitize_stream_name s = spec_sanitize s) ∧
    (∀ s : String,
      (sanitize_stream_name s).data.length = (pyRemoveQuotes s).data.length) ∧
    sanitize_stream_name ("public.accounts") = ("public.accounts") ∧
    sanitize_stream_name ("a  b!!") = ("a__b__") := by
  refine ⟨fun s => rfl, fun s => ?_, rfl, rfl⟩
  show ((pyRemoveQuotes s).data.map sanChar).length =
    (pyRemoveQuotes s).data.length
  simp

/-- C5: `sanitize_stream_name` is idempotent (and, being a total Lean
function over all of `String`, it is defined on every input). -/
theorem c5_sanitize_idempotent (s : String) :
    sanitize_stream_name (sanitize_stream_name s) = sanitize_stream_name s := by
  show String.mk ((((s.data.filter notQuote).map sanChar).filter
      notQuote).map sanChar) =
    String.mk ((s.data.filter notQuote).map sanChar)
  rw [filter_notQuote_map_sanChar, map_sanChar_idem]

/-- C6: for every stream name and prefix, `get_asset_key_for_target` is the
prefix prepended to the dot-split of the sanitized name, and with the default
prefix `target` the stream `public.accounts` maps to
`["target", "public", "accounts"]`. -/
theorem c6_target_identifier (s p : String) :
    get_asset_key_for_target s p = p :: splitDot (sanitize_stream_name s) ∧
    get_asset_key_for_target_default ("public.accounts") =
      [("target"), ("public"), ("accounts")] :=
  ⟨rfl, rfl⟩

/-- C7: for every stream name, `get_deps_asset_key` is the dot-split of the
sanitized name with no prefix segment, and `public.accounts` maps to
`["public", "accounts"]`. -/
theorem c7_dependency_identifier (s : String) :
    get_deps_asset_key s = splitDot (sanitize_stream_name s) ∧
    get_deps_asset_key ("public.accounts") = [("public"), ("accounts")] :=
  ⟨rfl, rfl⟩

/-- C8: a successful stream enumeration yields exactly one logical stream
value per entry of the `streams` mapping (no filtering), where a non-dict
descriptor yields the raw key and a truthy `meta.dagster.asset_key` override
yields the override value. -/
theorem c8_stream_enumeration (cfg : ReplicationConfig) (ids : List PyVal)
    (h : get_streams_from_replication cfg = Except.ok ids) :
    ids.length = cfg.streams.length ∧
    List.Forall₂ (fun kv r =>
      (isPyDict kv.2 = false → r = PyVal.vstr kv.1) ∧
      (∀ ov, overrideOf kv.2 = some ov → pyTruthy ov = true → r = ov))
      cfg.streams ids := by
  have h0 : mapExcept (fun kv => streamKeyFor kv.1 kv.2) cfg.streams =
      Except.ok ids := h
  have hf := mapExcept_ok_forall₂ (fun kv => streamKeyFor kv.1 kv.2)
    cfg.streams ids h0
  refine ⟨hf.length_eq.symm, hf.imp ?_⟩
  intro kv r hr
  have hr2 : streamKeyFor kv.1 kv.2 = Except.ok r := hr
  constructor
  · intro hnd
    have h2 := streamKeyFor_not_dict kv.1 kv.2 hnd
    rw [h2] at hr2
    injection hr2 with h3
    exact h3.symm
  · intro ov hov ht
    have h2 := streamKeyFor_override kv.1 kv.2 ov hov ht
    rw [h2] at hr2
    injection hr2 with h3
    exact h3.symm

/-- C8 witness: the enumeration facts instantiated at a concrete two-stream
config, one stream with a null descriptor and one with a truthy
`asset_key` override. -/
theorem c8_stream_enumeration_witness :
    ([PyVal.vstr ("a.b"), PyVal.vstr ("ov.x")]).length =
      ([(("a.b"), PyVal.vnone),
        (("c!"), PyVal.vdict [(("meta"), PyVal.vdict [(("dagster"),
          PyVal.vdict [(("asset_key"), PyVal.vstr ("ov.x"))])])])] :
        List (String × PyVal)).length ∧
    List.Forall₂ (fun kv r =>
      (isPyDict kv.2 = false → r = PyVal.vstr kv.1) ∧
      (∀ ov, overrideOf kv.2 = some ov → pyTruthy ov = true → r = ov))
      ([(("a.b"), PyVal.vnone),
        (("c!"), PyVal.vdict [(("meta"), PyVal.vdict [(("dagster"),
          PyVal.vdict [(("asset_key"), PyVal.vstr ("ov.x"))])])])])
      ([PyVal.vstr ("a.b"), PyVal.vstr ("ov.x")]) :=
  c8_stream_enumeration
    ⟨[(("a.b"), PyVal.vnone),
      (("c!"), PyVal.vdict [(("meta"), PyVal.vdict [(("dagster"),
        PyVal.vdict [(("asset_key"), PyVal.vstr ("ov.x"))])])])]⟩
    [PyVal.vstr ("a.b"), PyVal.vstr ("ov.x")] rfl

/-- C9: the per-stream translation of `sling_assets` is deterministic and its
successful output depends on the stream entries only up to permutation:
permuted configs give permuted (hence set-equal) lists of (target, dep)
pairs, and identical configs give identical outputs (which also gives the
round-trip property for an identical copy). -/
theorem c9_deterministic_order_independent
    (c₁ c₂ : ReplicationConfig)
    (r₁ r₂ : List (List String × List String))
    (hperm : List.Perm c₁.streams c₂.streams)
    (h₁ : sling_asset_pairs c₁ = Except.ok r₁)
    (h₂ : sling_asset_pairs c₂ = Except.ok r₂) :
    List.Perm r₁ r₂ ∧ (c₁ = c₂ → r₁ = r₂) := by
  have key : ∀ (c : ReplicationConfig) (r : List (List String × List String)),
      sling_asset_pairs c = Except.ok r →
      r = c.streams.map (fun kv =>
        extractD (asset_pair (extractD (streamKeyFor kv.1 kv.2)))) := by
    intro c r h
    unfold sling_asset_pairs at h
    cases hs : get_streams_from_replication c with
    | error e => simp [hs] at h
    | ok ids =>
      simp [hs] at h
      have hs0 : mapExcept (fun kv => streamKeyFor kv.1 kv.2) c.streams =
          Except.ok ids := hs
      have e1 := mapExcept_ok_eq_map
        (fun kv => streamKeyFor kv.1 kv.2) c.streams ids hs0
      have e2 := mapExcept_ok_eq_map asset_pair ids r h
      rw [e2, e1, List.map_map]
      rfl
  constructor
  · rw [key c₁ r₁ h₁, key c₂ r₂ h₂]
    exact hperm.map _
  · intro heq
    subst heq
    rw [h₁] at h₂
    exact Except.ok.inj h₂

/-- C9 witness: two concrete configs with the same two entries in swapped
order; the theorem yields a permutation between their outputs and the
determinism implication. -/
theorem c9_deterministic_order_independent_witness :
    List.Perm
      ([([("target"), ("one"), ("a")], [("one"), ("a")]),
        ([("target"), ("two_b")], [("two_b")])])
      ([([("target"), ("two_b")], [("two_b")]),
        ([("target"), ("one"), ("a")], [("one"), ("a")])]) ∧
    ((ReplicationConfig.mk
        [(("one.a"), PyVal.vnone), (("two b"), PyVal.vdict [])]) =
      (ReplicationConfig.mk
        [(("two b"), PyVal.vdict []), (("one.a"), PyVal.vnone)]) →
      ([([("target"), ("one"), ("a")], [("one"), ("a")]),
        ([("target"), ("two_b")], [("two_b")])]) =
      ([([("target"), ("two_b")], [("two_b")]),
        ([("target"), ("one"), ("a")], [("one"), ("a")])])) :=
  c9_deterministic_order_independent
    ⟨[(("one.a"), PyVal.vnone), (("two b"), PyVal.vdict [])]⟩
    ⟨[(("two b"), PyVal.vdict []), (("one.a"), PyVal.vnone)]⟩
    ([([("target"), ("one"), ("a")], [("one"), ("a")]),
      ([("target"), ("two_b")], [("two_b")])])
    ([([("target"), ("two_b")], [("two_b")]),
      ([("target"), ("one"), ("a")], [("one"), ("a")])])
    (List.Perm.swap _ _ _) rfl rfl

/-- C10: a `meta.dagster.asset_key` override whose value is falsy (empty
string, empty list, and likewise any other falsy value) is ignored and the
raw stream key is used, exactly as when no override is present. -/
theorem c10_falsy_override_ignored (k : String) (v : PyVal) (ov : PyVal)
    (hov : overrideOf v = some ov) (hf : pyTruthy ov = false) :
    streamKeyFor k v = Except.ok (PyVal.vstr k) := by
  cases v with
  | vdict es =>
    cases hdag : pyDictGet (pyGetD es ("meta") (PyVal.vdict [])) ("dagster")
        (PyVal.vdict []) with
    | error e => simp [overrideOf, hdag] at hov
    | ok dag =>
      cases hak : pyDictGet dag ("asset_key") (PyVal.vlist []) with
      | error e => simp [overrideOf, hdag, hak] at hov
      | ok ak =>
        simp [overrideOf, hdag, hak] at hov
        subst hov
        simp [streamKeyFor, hdag, hak, hf]
  | vstr s => simp [overrideOf] at hov
  | vlist xs => simp [overrideOf] at hov
  | vbool b => simp [overrideOf] at hov
  | vint n => simp [overrideOf] at hov
  | vnone => simp [overrideOf] at hov

/-- C10 witness: an empty-string override on the stream `public.users` is
ignored and the raw key is used. -/
theorem c10_falsy_override_ignored_witness :
    overrideOf (PyVal.vdict [(("meta"), PyVal.vdict [(("dagster"),
        PyVal.vdict [(("asset_key"), PyVal.vstr (""))])])]) =
      some (PyVal.vstr ("")) ∧
    pyTruthy (PyVal.vstr ("")) = false ∧
    streamKeyFor ("public.users") (PyVal.vdict [(("meta"), PyVal.vdict
        [(("dagster"), PyVal.vdict [(("asset_key"), PyVal.vstr (""))])])]) =
      Except.ok (PyVal.vstr ("public.users")) :=
  ⟨rfl, rfl,
    c10_falsy_override_ignored ("public.users")
      (PyVal.vdict [(("meta"), PyVal.vdict [(("dagster"),
        PyVal.vdict [(("asset_key"), PyVal.vstr (""))])])])
      (PyVal.vstr ("")) rfl rfl⟩
